import Mathlib

/-!
# Freshflow Foods front-end scripts: a shallow embedding

This file embeds, in Lean, the behaviour of the two JavaScript variants of
the Freshflow Foods marketing site (`js/main.js` and the optimized variant
`js/main.optimized.js`) that the repository ships, restricted to the parts
the verified claims are about: the contact-form controller (field
validation, the WhatsApp / mailto deep-link construction, the reset and
input handlers), the header scroll check, the mobile dropdown logic, the
scroll-reveal observer protocol and the deferred-initialization scheduler.

DOM state is made explicit as Lean structures; event handlers become state
transition functions; the browser's `encodeURIComponent` is modelled down
to UTF-8 percent-encoding so that statements about the *decoded* payload of
the generated deep link are meaningful.
-/

namespace Freshflow

/-! ## JavaScript string primitives -/

/-- The UTF-8 byte sequence of a character (as natural numbers < 256).
This is the byte stream `encodeURIComponent` percent-encodes from. -/
def utf8Bytes (c : Char) : List Nat :=
  if c.toNat < 0x80 then [c.toNat]
  else if c.toNat < 0x800 then [0xC0 + c.toNat / 0x40, 0x80 + c.toNat % 0x40]
  else if c.toNat < 0x10000 then
    [0xE0 + c.toNat / 0x1000, 0x80 + (c.toNat / 0x40) % 0x40, 0x80 + c.toNat % 0x40]
  else
    [0xF0 + c.toNat / 0x40000, 0x80 + (c.toNat / 0x1000) % 0x40,
      0x80 + (c.toNat / 0x40) % 0x40, 0x80 + c.toNat % 0x40]

/-- The UTF-8 bytes of a whole string: the reference "byte content" used to
state that a value occurs verbatim inside a percent-decoded payload. -/
def strBytes (s : String) : List Nat := (s.data.map utf8Bytes).flatten

/-- Characters in the white-space class of JavaScript's `\s` and of
`String.prototype.trim` (space, tab, line terminators, NBSP, the Unicode
space separators, BOM). -/
def isJsSpace (c : Char) : Bool :=
  c.toNat == 0x9 || c.toNat == 0xA || c.toNat == 0xB || c.toNat == 0xC ||
  c.toNat == 0xD || c.toNat == 0x20 || c.toNat == 0xA0 || c.toNat == 0x1680 ||
  (0x2000 ≤ c.toNat && c.toNat ≤ 0x200A) || c.toNat == 0x2028 ||
  c.toNat == 0x2029 || c.toNat == 0x202F || c.toNat == 0x205F ||
  c.toNat == 0x3000 || c.toNat == 0xFEFF

/-- JavaScript `String.prototype.trim`: strip leading and trailing
white space. -/
def jsTrim (s : String) : String :=
  ⟨((s.data.dropWhile isJsSpace).reverse.dropWhile isJsSpace).reverse⟩

/-- JavaScript `String.prototype.length`: the number of UTF-16 code units
(astral characters count twice). -/
def jsLength (s : String) : Nat :=
  (s.data.map (fun c => if c.toNat ≥ 0x10000 then 2 else 1)).sum

/-- Upper-case hexadecimal digit for `n < 16`, as produced by
`encodeURIComponent`'s `%XY` escapes. -/
def hexDigit (n : Nat) : Char :=
  if n < 10 then Char.ofNat (48 + n) else Char.ofNat (55 + n)

/-- Numeric value of a hexadecimal digit (as `decodeURIComponent` reads
them; accepts both cases). -/
def hexVal (c : Char) : Nat :=
  if c.toNat ≥ 97 then c.toNat - 87
  else if c.toNat ≥ 65 then c.toNat - 55
  else c.toNat - 48

/-- The characters `encodeURIComponent` leaves unescaped:
`A–Z a–z 0–9 - _ . ! ~ * ' ( )`. -/
def isUriUnreserved (c : Char) : Bool :=
  (65 ≤ c.toNat && c.toNat ≤ 90) || (97 ≤ c.toNat && c.toNat ≤ 122) ||
  (48 ≤ c.toNat && c.toNat ≤ 57) ||
  c == '-' || c == '_' || c == '.' || c == '!' || c == '~' || c == '*' ||
  c == '\'' || c == '(' || c == ')'

/-- The `%XY` escape of one byte. -/
def pctEscape (b : Nat) : List Char :=
  ['%', hexDigit (b / 16), hexDigit (b % 16)]

/-- `encodeURIComponent` on one character: kept verbatim when unreserved,
otherwise every UTF-8 byte is percent-escaped. -/
def encChar (c : Char) : List Char :=
  if isUriUnreserved c then [c] else ((utf8Bytes c).map pctEscape).flatten

/-- `encodeURIComponent` on a character list. -/
def encList (cs : List Char) : List Char := (cs.map encChar).flatten

/-- JavaScript's `encodeURIComponent`. -/
def encodeURIComponent (s : String) : String := ⟨encList s.data⟩

/-- Percent-decoding to a byte sequence: a `%XY` escape contributes the
byte `XY`; any other character contributes its UTF-8 bytes.  This is the
byte-level reading of `decodeURIComponent` on the payloads this program
builds (which are well-formed). -/
def pctDecodeBytes : List Char → List Nat
  | [] => []
  | c :: rest =>
    if c = '%' then
      match rest with
      | h1 :: h2 :: rest2 => (16 * hexVal h1 + hexVal h2) :: pctDecodeBytes rest2
      | [] => utf8Bytes c
      | [h1] => utf8Bytes c ++ utf8Bytes h1
    else utf8Bytes c ++ pctDecodeBytes rest

/-- A character list is percent-well-formed when every `%` starts a
complete three-character escape. Decoding distributes over append at a
well-formed left part. -/
def wfPct : List Char → Bool
  | [] => true
  | c :: rest =>
    if c = '%' then
      match rest with
      | _ :: _ :: rest2 => wfPct rest2
      | _ => false
    else wfPct rest

/-! ## Contact-form field validation

`validateField(input, errorEl, type)` from both script variants: trim the
value, report "This field is required." when empty, then apply the
type-specific rule; the first failing rule's message wins.  The result here
is `some errorMessage` (the field is shown in error state) or `none`
(valid, error cleared). -/

/-- The three validated fields of the contact form. -/
inductive FieldType
  | fname
  | femail
  | fmessage
deriving DecidableEq, Repr

/-- A character admitted by the `[^\s@]` atoms of the e-mail regular
expression: neither white space nor `@`. -/
def isEmailAtom (c : Char) : Bool := !isJsSpace c && c != '@'

/-- `isValidEmail` from both variants: the test of the regular expression
`/^[^\s@]+@[^\s@]+\.[^\s@]+$/`.  A string matches exactly when it splits as
`local@domain` with a non-empty all-atom local part (the part before the
first `@`), an all-atom domain (hence no second `@`), and a `.` somewhere
in the interior of the domain (the `[^\s@]` atom itself admits `.`, so the
regex's split point is any interior dot). -/
def isValidEmail (s : String) : Bool :=
  let cs := s.data
  let localPart := cs.takeWhile (fun c => c != '@')
  match cs.dropWhile (fun c => c != '@') with
  | '@' :: domain =>
    !localPart.isEmpty && localPart.all isEmailAtom && domain.all isEmailAtom &&
    ((domain.drop 1).dropLast.contains '.')
  | _ => false

/-- `validateField` (per-field rules; DOM side effects are applied by the
handlers below).  Returns `some msg` when invalid, `none` when valid. -/
def validateField (t : FieldType) (value : String) : Option String :=
  let v := jsTrim value
  if v = "" then some "This field is required."
  else
    match t with
    | .femail =>
      if !isValidEmail v then some "Please enter a valid email address." else none
    | .fname =>
      if jsLength v < 2 then some "Name must be at least 2 characters." else none
    | .fmessage =>
      if jsLength v < 10 then some "Message must be at least 10 characters." else none

/-! ## Contact-form state and handlers

The DOM state the contact-form controller touches, made explicit.  `none`
for `phoneValue` means the optional phone input is absent from the page
(the code reads it with `document.getElementById('phone')?`).  The subject
`<select>` is likewise optional and read only at submit time, so it is
passed to the submit handler as an `Option` parameter. -/

structure FormState where
  nameValue : String
  emailValue : String
  messageValue : String
  phoneValue : Option String
  nameErrText : String
  emailErrText : String
  messageErrText : String
  nameErrClass : Bool
  emailErrClass : Bool
  messageErrClass : Bool
  formVisible : Bool
  successVisible : Bool
  submitDisabled : Bool
  btnLoading : Bool
deriving DecidableEq, Repr

/-- The current value of a validated field. -/
def fieldValue : FieldType → FormState → String
  | .fname, s => s.nameValue
  | .femail, s => s.emailValue
  | .fmessage, s => s.messageValue

/-- The inline error text shown next to a validated field. -/
def errTextOf : FieldType → FormState → String
  | .fname, s => s.nameErrText
  | .femail, s => s.emailErrText
  | .fmessage, s => s.messageErrText

/-- Whether a validated field currently carries the `error` styling class. -/
def errClassOf : FieldType → FormState → Bool
  | .fname, s => s.nameErrClass
  | .femail, s => s.emailErrClass
  | .fmessage, s => s.messageErrClass

/-- Write one field's error text and class (the net effect of
`clearError` followed by an optional `showError`). -/
def setErr (f : FieldType) (txt : String) (cls : Bool) (s : FormState) : FormState :=
  match f with
  | .fname => { s with nameErrText := txt, nameErrClass := cls }
  | .femail => { s with emailErrText := txt, emailErrClass := cls }
  | .fmessage => { s with messageErrText := txt, messageErrClass := cls }

/-- The `blur` handler of a validated field: run `validateField` and apply
its DOM effect (`clearError`, then `showError` on failure). -/
def handleBlur (f : FieldType) (s : FormState) : FormState :=
  match validateField f (fieldValue f s) with
  | some msg => setErr f msg true s
  | none => setErr f "" false s

/-- The `input` handler of a validated field: it only removes the `error`
styling class from that field (`this.classList.remove('error')`); the
error text element is not touched. -/
def handleInput (f : FieldType) (s : FormState) : FormState :=
  match f with
  | .fname => { s with nameErrClass := false }
  | .femail => { s with emailErrClass := false }
  | .fmessage => { s with messageErrClass := false }

/-! ## Deep-link construction on submit -/

/-- `document.getElementById('phone')?.value.trim() || 'Not provided'`:
the default kicks in when the input is absent (`none`) or its trimmed
value is the empty string (falsy). -/
def collectPhone : Option String → String
  | none => "Not provided"
  | some v => if jsTrim v = "" then "Not provided" else jsTrim v

/-- `subjectSelect ? subjectSelect.options[subjectSelect.selectedIndex].text
: 'General Inquiry'`: the selected option's label, or the fixed default
when the subject select is absent. -/
def collectSubjectLabel : Option String → String
  | none => "General Inquiry"
  | some lbl => lbl

/-- The WhatsApp message template.  The `%0A` line breaks are written
literally in the template string (they are *not* produced by
`encodeURIComponent`); the five field values are embedded through
`encodeURIComponent`. -/
def whatsappMessage (nameV emailV phoneV subjectLbl messageV : String) : String :=
  "*New Enquiry – Freshflow Foods*%0A%0A*Name:* " ++ encodeURIComponent nameV ++
  "%0A*Email:* " ++ encodeURIComponent emailV ++
  "%0A*Phone:* " ++ encodeURIComponent phoneV ++
  "%0A*Subject:* " ++ encodeURIComponent subjectLbl ++
  "%0A%0A*Message:*%0A" ++ encodeURIComponent messageV ++
  "%0A%0A_Sent from Freshflow Foods website contact form._"

/-- `https://wa.me/917794084488?text=${whatsappMessage}`. -/
def whatsappUrl (nameV emailV phoneV subjectLbl messageV : String) : String :=
  "https://wa.me/917794084488?text=" ++
    whatsappMessage nameV emailV phoneV subjectLbl messageV

/-- The byte sequence obtained by percent-decoding the `text` payload of
the WhatsApp deep link. -/
def decodedPayload (nameV emailV phoneV subjectLbl messageV : String) : List Nat :=
  pctDecodeBytes (whatsappMessage nameV emailV phoneV subjectLbl messageV).data

/-- The mailto body of the original variant (plain text with real
newlines, passed through `encodeURIComponent`). -/
def emailBody (nameV emailV phoneV subjectLbl messageV : String) : String :=
  "New Enquiry – Freshflow Foods\n\nName: " ++ nameV ++ "\nEmail: " ++ emailV ++
  "\nPhone: " ++ phoneV ++ "\nSubject: " ++ subjectLbl ++ "\n\nMessage:\n" ++
  messageV ++ "\n\n---\nSent from Freshflow Foods website contact form."

/-- `mailto:freshflowfoods@gmail.com?subject=...&body=...` of the original
variant. -/
def mailtoUrl (nameV emailV phoneV subjectLbl messageV : String) : String :=
  "mailto:freshflowfoods@gmail.com?subject=" ++
    encodeURIComponent ("New Enquiry – Freshflow Foods: " ++ subjectLbl) ++
    "&body=" ++ encodeURIComponent (emailBody nameV emailV phoneV subjectLbl messageV)

/-! ## Submit, timeout callback and reset -/

/-- What the submit handler schedules with `setTimeout(..., 1000)` on the
valid path: the WhatsApp URL to open and, in the original variant only,
the mailto URL given to the hidden anchor. -/
structure PendingSubmit where
  waUrl : String
  hiddenMailto : Option String
deriving DecidableEq, Repr

/-- Externally observable side effects of the timeout callback. -/
structure SubmitEffects where
  openedUrls : List String
  appendedAnchorHrefs : List String
  clickedHrefs : List String
deriving DecidableEq, Repr

/-- The three `validateField` calls the submit handler performs, in source
order (name, email, message), with their DOM effects. -/
def applyValidationAll (s : FormState) : FormState :=
  handleBlur .fmessage (handleBlur .femail (handleBlur .fname s))

/-- All three required fields pass validation. -/
def formValid (s : FormState) : Bool :=
  (validateField .fname s.nameValue).isNone &&
  (validateField .femail s.emailValue).isNone &&
  (validateField .fmessage s.messageValue).isNone

/-- The synchronous part of the submit handler, parameterised by the
variant (`orig = true` for `js/main.js`, which also prepares the mailto
link).  `subjectSel` is the label of the selected subject option when the
subject select exists.  On the valid path the submit control is disabled,
the loading indicator shown, and the deep links are computed and scheduled;
otherwise only the validation effects happen. -/
def handleSubmit (orig : Bool) (subjectSel : Option String) (s : FormState) :
    FormState × Option PendingSubmit :=
  let s' := applyValidationAll s
  if formValid s then
    let nameV := jsTrim s.nameValue
    let emailV := jsTrim s.emailValue
    let messageV := jsTrim s.messageValue
    let phoneV := collectPhone s.phoneValue
    let subjectLbl := collectSubjectLabel subjectSel
    ({ s' with submitDisabled := true, btnLoading := true },
      some
        { waUrl := whatsappUrl nameV emailV phoneV subjectLbl messageV
          hiddenMailto :=
            if orig then some (mailtoUrl nameV emailV phoneV subjectLbl messageV)
            else none })
  else (s', none)

/-- The `setTimeout` callback, 1000 ms later: open the WhatsApp URL in a
new tab; in the original variant, create a hidden anchor holding the
mailto URL and append it to the body — the anchor is **never clicked**;
hide the form, show the success panel, restore the submit control. -/
def runPending (s : FormState) (p : PendingSubmit) : FormState × SubmitEffects :=
  ({ s with
      formVisible := false
      successVisible := true
      submitDisabled := false
      btnLoading := false },
    { openedUrls := [p.waUrl]
      appendedAnchorHrefs := p.hiddenMailto.toList
      clickedHrefs := [] })

/-- The reset-button handler: `form.reset()` (all inputs back to their
empty defaults), remove the error classes, blank the error texts, show the
form, hide the success panel. -/
def resetHandler (s : FormState) : FormState :=
  { nameValue := ""
    emailValue := ""
    messageValue := ""
    phoneValue := s.phoneValue.map (fun _ => "")
    nameErrText := ""
    emailErrText := ""
    messageErrText := ""
    nameErrClass := false
    emailErrClass := false
    messageErrClass := false
    formVisible := true
    successVisible := false
    submitDisabled := s.submitDisabled
    btnLoading := s.btnLoading }

/-! ## Header scroll state

`checkHeaderScroll` of `js/main.js` (`header.classList.add/remove('scrolled')`
depending on `window.scrollY > 50`) and `checkScroll` of the optimized
variant (`classList.toggle('scrolled', window.scrollY > 50)`) compute the
same new state.  `window.scrollY` may be fractional, hence `ℚ`. -/

def checkHeaderScroll (y : ℚ) (_scrolled : Bool) : Bool :=
  if y > 50 then true else false

/-! ## Mobile dropdowns

A dropdown-toggle click handler: at viewport width `w ≤ 991` it prevents
the default link action, toggles the clicked dropdown's `active` class and
removes `active` from every other dropdown; at larger widths it does
nothing.  The page's dropdowns are a list of `active` flags. -/

/-- Close every dropdown (`other.classList.remove('active')`). -/
def closeAll (states : List Bool) : List Bool := states.map (fun _ => false)

/-- Toggle the dropdown at position `i`, closing all others. -/
def clickUpdate : Nat → List Bool → List Bool
  | _, [] => []
  | 0, b :: rest => (!b) :: closeAll rest
  | n + 1, _ :: rest => false :: clickUpdate n rest

/-- The dropdown-toggle click handler; the `Bool` component records
whether the click intercepted the default action (`e.preventDefault()`). -/
def dropdownClick (w : Nat) (states : List Bool) (i : Nat) : List Bool × Bool :=
  if w ≤ 991 then (clickUpdate i states, true) else (states, false)

/-- A sequence of dropdown clicks at a fixed viewport width. -/
def runClicks (w : Nat) (states : List Bool) : List Nat → List Bool
  | [] => states
  | i :: rest => runClicks w (dropdownClick w states i).1 rest

/-- The number of dropdowns currently open. -/
def countOpen : List Bool → Nat
  | [] => 0
  | b :: rest => (if b then 1 else 0) + countOpen rest

/-! ## Scroll-reveal observer protocol

Both reveal observers (`[data-animate]` elements and the breed/region
cards) follow the same protocol: the `IntersectionObserver` callback runs
for an element only while it is observed; on an intersecting entry it
marks the element revealed and calls `observer.unobserve` on it; a
non-intersecting entry does nothing. -/

/-- Per-element observer state: whether the reveal class has been added
and whether the observer still watches the element. -/
structure ElemState where
  animated : Bool
  observed : Bool
deriving DecidableEq, Repr

/-- State of an element just after `observer.observe(element)`. -/
def initialElem : ElemState := { animated := false, observed := true }

/-- One delivered intersection entry (`isIntersecting : Bool`): the
callback only reaches the element while it is observed; when intersecting
it adds the reveal class and unobserves the element. -/
def revealStep (s : ElemState) (isIntersecting : Bool) : ElemState :=
  if s.observed && isIntersecting then { animated := true, observed := false }
  else s

/-- Process a sequence of intersection entries for one element. -/
def runEntries (s : ElemState) : List Bool → ElemState
  | [] => s
  | e :: rest => runEntries (revealStep s e) rest

/-- How many entries of the sequence flip the element to revealed. -/
def revealCount (s : ElemState) : List Bool → Nat
  | [] => 0
  | e :: rest =>
    let s' := revealStep s e
    (if s'.animated && !s.animated then 1 else 0) + revealCount s' rest

/-! ## Deferred-initialization scheduler (optimized variant)

`initDeferredFeatures` nests two `requestAnimationFrame` waits, then runs
`initHeroSwiperDeferred()` synchronously and passes the bundle of
non-critical initializers to `deferInit`, which schedules it through
`requestIdleCallback(cb, { timeout: 2000 })` when available and through
`setTimeout(cb, 100)` otherwise. -/

/-- How `deferInit` schedules its callback. -/
inductive IdleSched
  | idleCb (timeoutMs : Nat)
  | timeoutFb (delayMs : Nat)
deriving DecidableEq, Repr

/-- `deferInit`: `requestIdleCallback` with a 2000 ms upper bound when the
environment has it, else a fixed 100 ms `setTimeout`. -/
def deferInit (hasRequestIdleCallback : Bool) : IdleSched :=
  if hasRequestIdleCallback then .idleCb 2000 else .timeoutFb 100

/-- The two units of deferred work the claims talk about. -/
inductive DeferredTask
  | heroSwiperInit
  | idleBundle
deriving DecidableEq, Repr

/-- The body of `initDeferredFeatures` that runs inside the second
animation frame: synchronous statements and callback scheduling, in
source order. -/
inductive DeferredAction
  | run (t : DeferredTask)
  | schedule (s : IdleSched) (t : DeferredTask)
deriving DecidableEq, Repr

/-- `initDeferredFeatures`' second-frame body: construct the carousel,
then hand the non-critical bundle to `deferInit`. -/
def initDeferredFeatures (hasIdle : Bool) : List DeferredAction :=
  [.run .heroSwiperInit, .schedule (deferInit hasIdle) .idleBundle]

/-- Single-threaded event-loop semantics: synchronous statements run in
order; a scheduled callback can only run after the current body has run to
completion.  The result is the order in which the tasks execute. -/
def execOrder (body : List DeferredAction) : List DeferredTask :=
  let step := fun (acc : List DeferredTask × List DeferredTask) a =>
    match a with
    | DeferredAction.run t => (acc.1 ++ [t], acc.2)
    | DeferredAction.schedule _ t => (acc.1, acc.2 ++ [t])
  let fin := body.foldl step ([], [])
  fin.1 ++ fin.2

/-! ## Lemmas: percent-encoding round-trips at byte level -/

theorem char_toNat_lt (c : Char) : c.toNat < 0x110000 := by
  have h := c.valid
  unfold UInt32.isValidChar Nat.isValidChar at h
  rcases h with h | ⟨h1, h2⟩
  · calc c.toNat < 0xd800 := h
      _ < 0x110000 := by norm_num
  · exact h2

theorem utf8Bytes_lt (c : Char) : ∀ b ∈ utf8Bytes c, b < 256 := by
  have h := char_toNat_lt c
  intro b hb
  unfold utf8Bytes at hb
  split_ifs at hb <;>
    simp only [List.mem_cons, List.not_mem_nil, or_false] at hb <;>
    rcases hb with rfl | rfl | rfl | rfl <;> omega

theorem hexVal_hexDigit : ∀ n, n < 16 → hexVal (hexDigit n) = n := by decide

theorem pctDecodeBytes_pct (h1 h2 : Char) (rest : List Char) :
    pctDecodeBytes ('%' :: h1 :: h2 :: rest) =
      (16 * hexVal h1 + hexVal h2) :: pctDecodeBytes rest := by
  rw [pctDecodeBytes]
  simp

theorem pctDecodeBytes_cons {c : Char} (h : c ≠ '%') (rest : List Char) :
    pctDecodeBytes (c :: rest) = utf8Bytes c ++ pctDecodeBytes rest := by
  rw [pctDecodeBytes.eq_def]
  simp [h]

theorem pctDecodeBytes_escape {b : Nat} (hb : b < 256) (rest : List Char) :
    pctDecodeBytes (pctEscape b ++ rest) = b :: pctDecodeBytes rest := by
  show pctDecodeBytes ('%' :: hexDigit (b / 16) :: hexDigit (b % 16) :: rest) = _
  rw [pctDecodeBytes_pct, hexVal_hexDigit _ (by omega), hexVal_hexDigit _ (by omega),
    Nat.div_add_mod]

theorem pctDecodeBytes_escapes {bs : List Nat} (hb : ∀ b ∈ bs, b < 256) (rest : List Char) :
    pctDecodeBytes ((bs.map pctEscape).flatten ++ rest) = bs ++ pctDecodeBytes rest := by
  induction bs with
  | nil => simp
  | cons b bs ih =>
    simp only [List.map_cons, List.flatten_cons, List.append_assoc]
    rw [pctDecodeBytes_escape (hb b (by simp)), ih (fun x hx => hb x (by simp [hx]))]
    rfl

theorem isUriUnreserved_ne_pct {c : Char} (h : isUriUnreserved c = true) : c ≠ '%' := by
  rintro rfl
  exact absurd h (by decide)

theorem pctDecodeBytes_encChar (c : Char) (rest : List Char) :
    pctDecodeBytes (encChar c ++ rest) = utf8Bytes c ++ pctDecodeBytes rest := by
  unfold encChar
  by_cases h : isUriUnreserved c
  · rw [if_pos h]
    exact pctDecodeBytes_cons (isUriUnreserved_ne_pct h) rest
  · rw [if_neg h]
    exact pctDecodeBytes_escapes (utf8Bytes_lt c) rest

theorem pctDecodeBytes_encList (cs rest : List Char) :
    pctDecodeBytes (encList cs ++ rest) =
      (cs.map utf8Bytes).flatten ++ pctDecodeBytes rest := by
  induction cs with
  | nil => simp [encList]
  | cons c cs ih =>
    simp only [encList, List.map_cons, List.flatten_cons, List.append_assoc] at *
    rw [pctDecodeBytes_encChar, ih]

theorem pctDecodeBytes_append :
    ∀ (l : List Char), wfPct l = true → ∀ r,
      pctDecodeBytes (l ++ r) = pctDecodeBytes l ++ pctDecodeBytes r
  | [], _, r => by
    have h0 : pctDecodeBytes [] = [] := by rw [pctDecodeBytes]
    simp [h0]
  | c :: rest, hl, r => by
    by_cases hc : c = '%'
    · subst hc
      match rest with
      | h1 :: h2 :: rest2 =>
        have hl2 : wfPct rest2 = true := by
          rw [wfPct] at hl
          simpa using hl
        simp only [List.cons_append]
        rw [pctDecodeBytes_pct, pctDecodeBytes_pct,
          pctDecodeBytes_append rest2 hl2 r]
        rfl
      | [] => rw [wfPct.eq_def] at hl; simp at hl
      | [h1] => rw [wfPct.eq_def] at hl; simp at hl
    · have hl2 : wfPct rest = true := by
        rw [wfPct.eq_def] at hl
        simpa [hc] using hl
      simp only [List.cons_append]
      rw [pctDecodeBytes_cons hc, pctDecodeBytes_cons hc,
        pctDecodeBytes_append rest hl2 r, List.append_assoc]

/-- `(encodeURIComponent s).data` unfolded. -/
theorem encodeURIComponent_data (s : String) :
    (encodeURIComponent s).data = encList s.data := rfl

/-- The decoded WhatsApp payload splits into the decoded literal template
segments with the UTF-8 bytes of the five embedded values in between. -/
theorem decodedPayload_decomp (n e p sub m : String) :
    decodedPayload n e p sub m =
      pctDecodeBytes "*New Enquiry – Freshflow Foods*%0A%0A*Name:* ".data ++ strBytes n ++
      pctDecodeBytes "%0A*Email:* ".data ++ strBytes e ++
      pctDecodeBytes "%0A*Phone:* ".data ++ strBytes p ++
      pctDecodeBytes "%0A*Subject:* ".data ++ strBytes sub ++
      pctDecodeBytes "%0A%0A*Message:*%0A".data ++ strBytes m ++
      pctDecodeBytes "%0A%0A_Sent from Freshflow Foods website contact form._".data := by
  unfold decodedPayload whatsappMessage
  simp only [String.data_append, encodeURIComponent_data, List.append_assoc]
  rw [pctDecodeBytes_append ("*New Enquiry – Freshflow Foods*%0A%0A*Name:* ".data) (by decide),
    pctDecodeBytes_encList,
    pctDecodeBytes_append ("%0A*Email:* ".data) (by decide),
    pctDecodeBytes_encList,
    pctDecodeBytes_append ("%0A*Phone:* ".data) (by decide),
    pctDecodeBytes_encList,
    pctDecodeBytes_append ("%0A*Subject:* ".data) (by decide),
    pctDecodeBytes_encList,
    pctDecodeBytes_append ("%0A%0A*Message:*%0A".data) (by decide),
    pctDecodeBytes_encList]
  simp only [strBytes, List.append_assoc]

theorem isInfix_append_left {α : Type} (x : List α) {l m : List α} (h : l <:+: m) :
    l <:+: x ++ m := by
  obtain ⟨u, v, huv⟩ := h
  exact ⟨x ++ u, v, by rw [List.append_assoc, List.append_assoc, ← List.append_assoc u,
    huv]⟩

theorem isInfix_self_append {α : Type} (l m : List α) : l <:+: l ++ m :=
  (List.prefix_append l m).isInfix

/-! ## Claim theorems -/

/-- **C1.** For every submission whose three required fields pass
validation and whose phone input and subject select are absent, the submit
handler (either variant) schedules a deep link of the form
`https://wa.me/917794084488?text=<payload>`; the percent-decoded payload
contains verbatim the collected (trimmed) name, email and message values,
the literal header "New Enquiry – Freshflow Foods", and the fixed defaults
"Not provided" and "General Inquiry" substituted for the absent phone and
subject; field values that carry no surrounding white space appear fully
verbatim. -/
theorem wa_deeplink_contains_fields_and_defaults
    (nameV emailV messageV : String)
    (hn : validateField .fname nameV = none)
    (he : validateField .femail emailV = none)
    (hm : validateField .fmessage messageV = none)
    (s : FormState) (orig : Bool)
    (hsn : s.nameValue = nameV) (hse : s.emailValue = emailV)
    (hsm : s.messageValue = messageV) (hsp : s.phoneValue = none) :
    collectPhone none = "Not provided" ∧
    collectSubjectLabel none = "General Inquiry" ∧
    ∃ pend, (handleSubmit orig none s).2 = some pend ∧
      pend.waUrl = "https://wa.me/917794084488?text=" ++
        whatsappMessage (jsTrim nameV) (jsTrim emailV) "Not provided"
          "General Inquiry" (jsTrim messageV) ∧
      strBytes "New Enquiry – Freshflow Foods" <:+:
        decodedPayload (jsTrim nameV) (jsTrim emailV) "Not provided"
          "General Inquiry" (jsTrim messageV) ∧
      strBytes (jsTrim nameV) <:+:
        decodedPayload (jsTrim nameV) (jsTrim emailV) "Not provided"
          "General Inquiry" (jsTrim messageV) ∧
      strBytes (jsTrim emailV) <:+:
        decodedPayload (jsTrim nameV) (jsTrim emailV) "Not provided"
          "General Inquiry" (jsTrim messageV) ∧
      strBytes (jsTrim messageV) <:+:
        decodedPayload (jsTrim nameV) (jsTrim emailV) "Not provided"
          "General Inquiry" (jsTrim messageV) ∧
      strBytes "Not provided" <:+:
        decodedPayload (jsTrim nameV) (jsTrim emailV) "Not provided"
          "General Inquiry" (jsTrim messageV) ∧
      strBytes "General Inquiry" <:+:
        decodedPayload (jsTrim nameV) (jsTrim emailV) "Not provided"
          "General Inquiry" (jsTrim messageV) ∧
      (jsTrim nameV = nameV → strBytes nameV <:+:
        decodedPayload (jsTrim nameV) (jsTrim emailV) "Not provided"
          "General Inquiry" (jsTrim messageV)) ∧
      (jsTrim emailV = emailV → strBytes emailV <:+:
        decodedPayload (jsTrim nameV) (jsTrim emailV) "Not provided"
          "General Inquiry" (jsTrim messageV)) ∧
      (jsTrim messageV = messageV → strBytes messageV <:+:
        decodedPayload (jsTrim nameV) (jsTrim emailV) "Not provided"
          "General Inquiry" (jsTrim messageV)) := by
  have hv : formValid s = true := by
    unfold formValid
    rw [hsn, hse, hsm, hn, he, hm]
    rfl
  have hd := decodedPayload_decomp (jsTrim nameV) (jsTrim emailV) "Not provided"
    "General Inquiry" (jsTrim messageV)
  have hD1 : pctDecodeBytes "*New Enquiry – Freshflow Foods*%0A%0A*Name:* ".data <:+:
      decodedPayload (jsTrim nameV) (jsTrim emailV) "Not provided"
        "General Inquiry" (jsTrim messageV) := by
    rw [hd]
    simp only [List.append_assoc]
    exact isInfix_self_append _ _
  have hname : strBytes (jsTrim nameV) <:+:
      decodedPayload (jsTrim nameV) (jsTrim emailV) "Not provided"
        "General Inquiry" (jsTrim messageV) := by
    rw [hd]
    simp only [List.append_assoc]
    exact isInfix_append_left _ (isInfix_self_append _ _)
  have hemail : strBytes (jsTrim emailV) <:+:
      decodedPayload (jsTrim nameV) (jsTrim emailV) "Not provided"
        "General Inquiry" (jsTrim messageV) := by
    rw [hd]
    simp only [List.append_assoc]
    exact isInfix_append_left _ (isInfix_append_left _ (isInfix_append_left _
      (isInfix_self_append _ _)))
  have hphone : strBytes "Not provided" <:+:
      decodedPayload (jsTrim nameV) (jsTrim emailV) "Not provided"
        "General Inquiry" (jsTrim messageV) := by
    rw [hd]
    simp only [List.append_assoc]
    exact isInfix_append_left _ (isInfix_append_left _ (isInfix_append_left _
      (isInfix_append_left _ (isInfix_append_left _ (isInfix_self_append _ _)))))
  have hsubj : strBytes "General Inquiry" <:+:
      decodedPayload (jsTrim nameV) (jsTrim emailV) "Not provided"
        "General Inquiry" (jsTrim messageV) := by
    rw [hd]
    simp only [List.append_assoc]
    exact isInfix_append_left _ (isInfix_append_left _ (isInfix_append_left _
      (isInfix_append_left _ (isInfix_append_left _ (isInfix_append_left _
        (isInfix_append_left _ (isInfix_self_append _ _)))))))
  have hmsg : strBytes (jsTrim messageV) <:+:
      decodedPayload (jsTrim nameV) (jsTrim emailV) "Not provided"
        "General Inquiry" (jsTrim messageV) := by
    rw [hd]
    simp only [List.append_assoc]
    exact isInfix_append_left _ (isInfix_append_left _ (isInfix_append_left _
      (isInfix_append_left _ (isInfix_append_left _ (isInfix_append_left _
        (isInfix_append_left _ (isInfix_append_left _ (isInfix_append_left _
          (isInfix_self_append _ _)))))))))
  have hheader : strBytes "New Enquiry – Freshflow Foods" <:+:
      decodedPayload (jsTrim nameV) (jsTrim emailV) "Not provided"
        "General Inquiry" (jsTrim messageV) :=
    List.IsInfix.trans (by decide) hD1
  have hsub : (handleSubmit orig none s).2 = some
      { waUrl := whatsappUrl (jsTrim nameV) (jsTrim emailV) "Not provided"
          "General Inquiry" (jsTrim messageV)
        hiddenMailto :=
          if orig then
            some (mailtoUrl (jsTrim nameV) (jsTrim emailV) "Not provided"
              "General Inquiry" (jsTrim messageV))
          else none } := by
    unfold handleSubmit
    rw [hv, hsn, hse, hsm, hsp]
    rfl
  exact ⟨rfl, rfl, _, hsub, rfl, hheader, hname, hemail, hmsg, hphone, hsubj,
    fun h => by rw [show strBytes nameV = strBytes (jsTrim nameV) from by rw [h]]; exact hname,
    fun h => by rw [show strBytes emailV = strBytes (jsTrim emailV) from by rw [h]]; exact hemail,
    fun h => by rw [show strBytes messageV = strBytes (jsTrim messageV) from by rw [h]]; exact hmsg⟩

/-- Witness for C1 at the spec's end-to-end example: name "Jo Smith",
email "jo@example.com", message "Hello, I would like to order.", phone and
subject absent. -/
theorem wa_deeplink_contains_fields_and_defaults_witness :
    validateField .fname "Jo Smith" = none ∧
    ∃ pend, (handleSubmit false none
        { nameValue := "Jo Smith", emailValue := "jo@example.com",
          messageValue := "Hello, I would like to order.", phoneValue := none,
          nameErrText := "", emailErrText := "", messageErrText := "",
          nameErrClass := false, emailErrClass := false, messageErrClass := false,
          formVisible := true, successVisible := false, submitDisabled := false,
          btnLoading := false }).2 = some pend ∧
      pend.waUrl = "https://wa.me/917794084488?text=" ++
        whatsappMessage "Jo Smith" "jo@example.com" "Not provided" "General Inquiry"
          "Hello, I would like to order." ∧
      strBytes "Jo Smith" <:+: decodedPayload "Jo Smith" "jo@example.com"
        "Not provided" "General Inquiry" "Hello, I would like to order." := by
  obtain ⟨-, -, pend, h1, h2, -, -, -, -, -, -, hcond, -, -⟩ :=
    wa_deeplink_contains_fields_and_defaults "Jo Smith" "jo@example.com"
      "Hello, I would like to order." (by decide) (by decide) (by decide)
      { nameValue := "Jo Smith", emailValue := "jo@example.com",
        messageValue := "Hello, I would like to order.", phoneValue := none,
        nameErrText := "", emailErrText := "", messageErrText := "",
        nameErrClass := false, emailErrClass := false, messageErrClass := false,
        formVisible := true, successVisible := false, submitDisabled := false,
        btnLoading := false } false rfl rfl rfl rfl
  have ht1 : jsTrim "Jo Smith" = "Jo Smith" := by decide
  have ht2 : jsTrim "jo@example.com" = "jo@example.com" := by decide
  have ht3 : jsTrim "Hello, I would like to order." =
      "Hello, I would like to order." := by decide
  have hin := hcond ht1
  rw [ht1, ht2, ht3] at h2 hin
  exact ⟨by decide, pend, h1, h2, hin⟩

/-- **C2.** `validateField` applies its rules in a fixed order with the
first failure winning: an empty trimmed value is rejected as required —
for every field type, before any shape rule; otherwise the email field
must match the permissive pattern, the name must be at least 2 characters
(UTF-16 units) after trim, the message at least 10, each with its own
message; a value passing all applicable rules is valid with no error. -/
theorem validateField_rules (v : String) :
    (∀ t, jsTrim v = "" → validateField t v = some "This field is required.") ∧
    (jsTrim v ≠ "" → isValidEmail (jsTrim v) = false →
      validateField .femail v = some "Please enter a valid email address.") ∧
    (jsTrim v ≠ "" → jsLength (jsTrim v) < 2 →
      validateField .fname v = some "Name must be at least 2 characters.") ∧
    (jsTrim v ≠ "" → jsLength (jsTrim v) < 10 →
      validateField .fmessage v = some "Message must be at least 10 characters.") ∧
    (validateField .femail v = none ↔ jsTrim v ≠ "" ∧ isValidEmail (jsTrim v) = true) ∧
    (validateField .fname v = none ↔ jsTrim v ≠ "" ∧ 2 ≤ jsLength (jsTrim v)) ∧
    (validateField .fmessage v = none ↔ jsTrim v ≠ "" ∧ 10 ≤ jsLength (jsTrim v)) := by
  by_cases h0 : jsTrim v = ""
  · refine ⟨fun t _ => ?_, fun h => absurd h0 h, fun h => absurd h0 h,
      fun h => absurd h0 h, ?_, ?_, ?_⟩ <;> simp [validateField, h0]
  · refine ⟨fun t h => absurd h h0, fun _ he => ?_, fun _ hl => ?_, fun _ hl => ?_,
      ?_, ?_, ?_⟩
    · simp [validateField, h0, he]
    · simp [validateField, h0, hl]
    · simp [validateField, h0, hl]
    · by_cases he : isValidEmail (jsTrim v) <;> simp [validateField, h0, he]
    · by_cases hl : jsLength (jsTrim v) < 2 <;> simp [validateField, h0, hl]
      omega
    · by_cases hl : jsLength (jsTrim v) < 10 <;> simp [validateField, h0, hl]
      omega

/-- Witness for C2: each rule observed at a concrete input; the required
rule wins over the name-length rule on a blank value. -/
theorem validateField_rules_witness :
    validateField .fname " " = some "This field is required." ∧
    validateField .femail "a@b" = some "Please enter a valid email address." ∧
    validateField .fname "A" = some "Name must be at least 2 characters." ∧
    validateField .fmessage "short" = some "Message must be at least 10 characters." ∧
    validateField .femail "jo@example.com" = none :=
  ⟨(validateField_rules " ").1 .fname (by decide),
    (validateField_rules "a@b").2.1 (by decide) (by decide),
    (validateField_rules "A").2.2.1 (by decide) (by decide),
    (validateField_rules "short").2.2.2.1 (by decide) (by decide),
    (validateField_rules "jo@example.com").2.2.2.2.1.mpr ⟨by decide, by decide⟩⟩

/-- Running the three submit-time `validateField` calls only rewrites the
error texts and classes; the values, visibility flags and button state are
untouched, and each field ends up showing exactly its validation result. -/
theorem applyValidationAll_spec (s : FormState) :
    (applyValidationAll s).formVisible = s.formVisible ∧
    (applyValidationAll s).successVisible = s.successVisible ∧
    (applyValidationAll s).submitDisabled = s.submitDisabled ∧
    (applyValidationAll s).btnLoading = s.btnLoading ∧
    (applyValidationAll s).phoneValue = s.phoneValue ∧
    (∀ f, fieldValue f (applyValidationAll s) = fieldValue f s) ∧
    (∀ f, errTextOf f (applyValidationAll s) =
      (validateField f (fieldValue f s)).getD "") ∧
    (∀ f, errClassOf f (applyValidationAll s) =
      (validateField f (fieldValue f s)).isSome) := by
  have step : ∀ (f : FieldType) (u : FormState),
      handleBlur f u = setErr f ((validateField f (fieldValue f u)).getD "")
        (validateField f (fieldValue f u)).isSome u := by
    intro f u
    unfold handleBlur
    cases validateField f (fieldValue f u) <;> rfl
  refine ⟨?_, ?_, ?_, ?_, ?_, fun f => ?_, fun f => ?_, fun f => ?_⟩ <;>
    simp only [applyValidationAll, step] <;>
    cases s <;>
    first
      | rfl
      | cases f <;> rfl

/-- **C3.** On submit (either variant), all three required fields are
re-validated; if any is invalid the submission aborts with no side effect:
no deep link is scheduled, the form visibility, success panel, submit
control and field values are unchanged, and each invalid field's error
message is shown. -/
theorem submit_aborts_on_invalid (orig : Bool) (subj : Option String) (s : FormState)
    (h : (validateField .fname s.nameValue).isSome ∨
      (validateField .femail s.emailValue).isSome ∨
      (validateField .fmessage s.messageValue).isSome) :
    handleSubmit orig subj s = (applyValidationAll s, none) ∧
    (applyValidationAll s).formVisible = s.formVisible ∧
    (applyValidationAll s).successVisible = s.successVisible ∧
    (applyValidationAll s).submitDisabled = s.submitDisabled ∧
    (applyValidationAll s).btnLoading = s.btnLoading ∧
    (∀ f, fieldValue f (applyValidationAll s) = fieldValue f s) ∧
    (∀ f, errTextOf f (applyValidationAll s) =
      (validateField f (fieldValue f s)).getD "") ∧
    (∀ f, errClassOf f (applyValidationAll s) =
      (validateField f (fieldValue f s)).isSome) := by
  have hv : formValid s = false := by
    unfold formValid
    rcases h with h | h | h <;>
      rcases Option.isSome_iff_exists.mp h with ⟨m, hm⟩ <;> simp [hm]
  have hs := applyValidationAll_spec s
  refine ⟨?_, hs.1, hs.2.1, hs.2.2.1, hs.2.2.2.1, hs.2.2.2.2.2.1,
    hs.2.2.2.2.2.2.1, hs.2.2.2.2.2.2.2⟩
  unfold handleSubmit
  rw [hv]
  rfl

/-- Witness for C3: submitting the fully empty form (invalid name) leaves
only the validation effects and schedules nothing. -/
theorem submit_aborts_on_invalid_witness :
    handleSubmit true none
      { nameValue := "", emailValue := "", messageValue := "", phoneValue := none,
        nameErrText := "", emailErrText := "", messageErrText := "",
        nameErrClass := false, emailErrClass := false, messageErrClass := false,
        formVisible := true, successVisible := false, submitDisabled := false,
        btnLoading := false } =
    (applyValidationAll
      { nameValue := "", emailValue := "", messageValue := "", phoneValue := none,
        nameErrText := "", emailErrText := "", messageErrText := "",
        nameErrClass := false, emailErrClass := false, messageErrClass := false,
        formVisible := true, successVisible := false, submitDisabled := false,
        btnLoading := false }, none) :=
  (submit_aborts_on_invalid true none _ (Or.inl (by decide))).1

/-! ### Reveal-observer lemmas (C5) -/

theorem revealStep_animated_of {s : ElemState} (e : Bool) (h : s.animated = true) :
    (revealStep s e).animated = true := by
  unfold revealStep
  split <;> simp [h]

theorem runEntries_stuck (s : ElemState) (h : s.observed = false) (evs : List Bool) :
    runEntries s evs = s := by
  induction evs with
  | nil => rfl
  | cons e rest ih =>
    have hstep : revealStep s e = s := by unfold revealStep; simp [h]
    simp [runEntries, hstep, ih]

theorem revealCount_zero_of_animated {s : ElemState} (h : s.animated = true)
    (evs : List Bool) : revealCount s evs = 0 := by
  induction evs generalizing s with
  | nil => rfl
  | cons e rest ih =>
    have ha := revealStep_animated_of e h
    simp only [revealCount]
    simp [ha, h, ih ha]

theorem revealCount_le_one (s : ElemState) (evs : List Bool) :
    revealCount s evs ≤ 1 := by
  induction evs generalizing s with
  | nil => simp [revealCount]
  | cons e rest ih =>
    simp only [revealCount]
    by_cases hc : ((revealStep s e).animated && !s.animated) = true
    · have ha : (revealStep s e).animated = true := by
        cases hb : (revealStep s e).animated
        · rw [hb] at hc; simp at hc
        · rfl
      simp [hc, revealCount_zero_of_animated ha rest]
    · simp [hc]
      exact ih (revealStep s e)

theorem runEntries_init (evs : List Bool) :
    runEntries initialElem evs =
      if true ∈ evs then { animated := true, observed := false } else initialElem := by
  induction evs with
  | nil => rfl
  | cons e rest ih =>
    cases e
    · have hstep : revealStep initialElem false = initialElem := rfl
      simp only [runEntries, hstep, ih, List.mem_cons]
      simp
    · have hstep : revealStep initialElem true =
          { animated := true, observed := false } := rfl
      simp only [runEntries, hstep, List.mem_cons]
      rw [runEntries_stuck { animated := true, observed := false } rfl rest]
      simp

/-- **C5.** Each animation-candidate element is revealed exactly once per
page view: over any delivered sequence of intersection entries it flips to
"revealed" at most once, it ends revealed exactly when some entry
intersected, it is unobserved immediately at the reveal transition, and an
unobserved element ignores every later entry. -/
theorem reveal_exactly_once (evs : List Bool) :
    revealCount initialElem evs ≤ 1 ∧
    ((runEntries initialElem evs).animated = true ↔ true ∈ evs) ∧
    (true ∈ evs →
      runEntries initialElem evs = { animated := true, observed := false }) ∧
    (∀ (s : ElemState) (e : Bool), s.observed = false → revealStep s e = s) ∧
    (∀ (s : ElemState) (e : Bool), revealStep s e ≠ s →
      (revealStep s e).animated = true ∧ (revealStep s e).observed = false) := by
  refine ⟨revealCount_le_one _ _, ?_, ?_, ?_, ?_⟩
  · rw [runEntries_init]
    by_cases h : true ∈ evs <;> simp [h, initialElem]
  · intro h
    rw [runEntries_init]
    simp [h]
  · intro s e h
    unfold revealStep
    simp [h]
  · intro s e hne
    unfold revealStep at hne ⊢
    by_cases hc : (s.observed && e) = true
    · simp [hc]
    · simp [hc] at hne

/-- Witness for C5: a concrete entry sequence with two intersections
reveals once; an already-unobserved element is left unchanged. -/
theorem reveal_exactly_once_witness :
    revealCount initialElem [false, true, true, false, true] ≤ 1 ∧
    runEntries initialElem [false, true] = { animated := true, observed := false } ∧
    revealStep { animated := true, observed := false } true =
      { animated := true, observed := false } :=
  ⟨(reveal_exactly_once [false, true, true, false, true]).1,
    (reveal_exactly_once [false, true]).2.2.1 (by decide),
    (reveal_exactly_once []).2.2.2.1 { animated := true, observed := false } true rfl⟩

/-! ### Dropdown lemmas (C6) -/

theorem countOpen_closeAll (l : List Bool) : countOpen (closeAll l) = 0 := by
  induction l with
  | nil => rfl
  | cons b rest ih => simp [closeAll, countOpen, ih] at *; simpa [closeAll] using ih

theorem countOpen_clickUpdate (i : Nat) (l : List Bool) :
    countOpen (clickUpdate i l) ≤ 1 := by
  induction l generalizing i with
  | nil => simp [clickUpdate, countOpen]
  | cons b rest ih =>
    cases i with
    | zero =>
      have h0 := countOpen_closeAll rest
      simp only [clickUpdate, countOpen, h0]
      cases b <;> simp
    | succ n =>
      simp only [clickUpdate, countOpen, if_neg Bool.false_ne_true]
      simpa using ih n

theorem closeAll_getD (l : List Bool) (j : Nat) : (closeAll l)[j]?.getD false = false := by
  induction l generalizing j with
  | nil => simp [closeAll]
  | cons b rest ih => cases j <;> simp [closeAll, ih]

theorem clickUpdate_getD_ne (l : List Bool) (i j : Nat) (h : j ≠ i) :
    (clickUpdate i l)[j]?.getD false = false := by
  induction l generalizing i j with
  | nil => simp [clickUpdate]
  | cons b rest ih =>
    cases i with
    | zero =>
      cases j with
      | zero => exact absurd rfl h
      | succ k => simp [clickUpdate, closeAll_getD]
    | succ n =>
      cases j with
      | zero => simp [clickUpdate]
      | succ k =>
        simp only [clickUpdate, List.getElem?_cons_succ]
        exact ih n k (fun hk => h (by rw [hk]))

theorem clickUpdate_getD_self (l : List Bool) (i : Nat)
    (hc : l[i]?.getD false = false) (hl : i < l.length) :
    (clickUpdate i l)[i]?.getD false = true := by
  induction l generalizing i with
  | nil => simp at hl
  | cons b rest ih =>
    cases i with
    | zero =>
      simp only [List.getElem?_cons_zero, Option.getD_some] at hc
      simp [clickUpdate, hc]
    | succ n =>
      simp only [List.getElem?_cons_succ] at hc
      simp only [List.length_cons, Nat.succ_lt_succ_iff] at hl
      simp only [clickUpdate, List.getElem?_cons_succ]
      exact ih n hc hl

theorem countOpen_runClicks (w : Nat) (clicks : List Nat) (states : List Bool)
    (h : countOpen states ≤ 1) : countOpen (runClicks w states clicks) ≤ 1 := by
  induction clicks generalizing states with
  | nil => simpa [runClicks] using h
  | cons i rest ih =>
    simp only [runClicks]
    apply ih
    by_cases hw : w ≤ 991
    · simp [dropdownClick, hw, countOpen_clickUpdate]
    · simp [dropdownClick, hw, h]

/-- **C6.** A dropdown-toggle click intercepts the default link action
exactly when the viewport width is at most 991; at such widths the click
leaves at most one dropdown open, closes every other dropdown, opens the
clicked closed dropdown, and any sequence of clicks preserves the
at-most-one-open invariant. -/
theorem dropdown_breakpoint_and_exclusivity (w : Nat) (states : List Bool) (i : Nat) :
    ((dropdownClick w states i).2 = true ↔ w ≤ 991) ∧
    (w ≤ 991 → countOpen (dropdownClick w states i).1 ≤ 1) ∧
    (w ≤ 991 → ∀ j, j ≠ i → (dropdownClick w states i).1.getD j false = false) ∧
    (w ≤ 991 → states.getD i false = false → i < states.length →
      (dropdownClick w states i).1.getD i false = true) ∧
    (∀ clicks, countOpen states ≤ 1 → countOpen (runClicks w states clicks) ≤ 1) := by
  refine ⟨?_, fun hw => ?_, fun hw j hj => ?_, fun hw hc hl => ?_,
    fun clicks h => countOpen_runClicks w clicks states h⟩
  · by_cases hw : w ≤ 991 <;> simp [dropdownClick, hw]
  · simp [dropdownClick, hw, countOpen_clickUpdate]
  · simp only [dropdownClick, if_pos hw, List.getD_eq_getElem?_getD]
    exact clickUpdate_getD_ne states i j hj
  · rw [List.getD_eq_getElem?_getD] at hc
    simp only [dropdownClick, if_pos hw, List.getD_eq_getElem?_getD]
    exact clickUpdate_getD_self states i hc hl

/-- Witness for C6: at width 400, clicking dropdown 0 while dropdown 1 is
open closes 1 and opens 0; a click sequence keeps at most one open. -/
theorem dropdown_breakpoint_and_exclusivity_witness :
    (dropdownClick 400 [false, true] 0).1.getD 1 false = false ∧
    (dropdownClick 400 [false, true] 0).1.getD 0 false = true ∧
    countOpen (runClicks 400 [true, false] [1, 0, 1]) ≤ 1 :=
  ⟨(dropdown_breakpoint_and_exclusivity 400 [false, true] 0).2.2.1 (by decide) 1
      (by decide),
    (dropdown_breakpoint_and_exclusivity 400 [false, true] 0).2.2.2.1 (by decide)
      (by decide) (by decide),
    (dropdown_breakpoint_and_exclusivity 400 [true, false] 0).2.2.2.2 [1, 0, 1]
      (by decide)⟩

/-- **C7.** The header scroll check sets the "scrolled" state exactly when
the vertical offset exceeds 50, is idempotent under repeated evaluation at
the same offset, and its result does not depend on the previous state. -/
theorem header_scrolled_iff_threshold (y : ℚ) (b b' : Bool) :
    (checkHeaderScroll y b = true ↔ y > 50) ∧
    checkHeaderScroll y (checkHeaderScroll y b) = checkHeaderScroll y b ∧
    checkHeaderScroll y b = checkHeaderScroll y b' := by
  unfold checkHeaderScroll
  by_cases h : y > 50 <;> simp [h]

/-- **C4.** In the optimized variant's deferred scheduler, carousel
construction runs strictly before the idle-scheduled bundle of
non-critical initializers; the bundle is scheduled through
`requestIdleCallback` with a 2000 ms upper bound when idle scheduling
exists, and through a fixed 100 ms `setTimeout` otherwise. -/
theorem deferred_carousel_before_idle_bundle (hasIdle : Bool) :
    execOrder (initDeferredFeatures hasIdle) =
      [DeferredTask.heroSwiperInit, DeferredTask.idleBundle] ∧
    (∃ i j : Nat, i < j ∧
      (execOrder (initDeferredFeatures hasIdle))[i]? =
        some DeferredTask.heroSwiperInit ∧
      (execOrder (initDeferredFeatures hasIdle))[j]? =
        some DeferredTask.idleBundle) ∧
    deferInit true = IdleSched.idleCb 2000 ∧
    deferInit false = IdleSched.timeoutFb 100 := by
  cases hasIdle <;> exact ⟨rfl, ⟨0, 1, by omega, rfl, rfl⟩, rfl, rfl⟩

/-! ### Form-handler helper lemmas (C8, C10) -/

theorem handleBlur_eq_setErr (f : FieldType) (u : FormState) :
    handleBlur f u = setErr f ((validateField f (fieldValue f u)).getD "")
      (validateField f (fieldValue f u)).isSome u := by
  unfold handleBlur
  cases validateField f (fieldValue f u) <;> rfl

theorem resetHandler_handleBlur (f : FieldType) (u : FormState) :
    resetHandler (handleBlur f u) = resetHandler u := by
  rw [handleBlur_eq_setErr]
  cases f <;> rfl

/-- **C8.** Activating the reset control from any prior form state leaves
every field value cleared, every error class removed, every error text
empty, the form visible and the success panel hidden; the outcome is the
same whatever blur / input / submit-validation events preceded it. -/
theorem reset_restores_pristine_form (s : FormState) :
    (resetHandler s).nameValue = "" ∧
    (resetHandler s).emailValue = "" ∧
    (resetHandler s).messageValue = "" ∧
    (resetHandler s).phoneValue = s.phoneValue.map (fun _ => "") ∧
    (∀ f, errTextOf f (resetHandler s) = "") ∧
    (∀ f, errClassOf f (resetHandler s) = false) ∧
    (resetHandler s).formVisible = true ∧
    (resetHandler s).successVisible = false ∧
    (∀ f, resetHandler (handleBlur f s) = resetHandler s) ∧
    (∀ f, resetHandler (handleInput f s) = resetHandler s) ∧
    resetHandler (applyValidationAll s) = resetHandler s := by
  refine ⟨rfl, rfl, rfl, rfl, fun f => ?_, fun f => ?_, rfl, rfl,
    fun f => resetHandler_handleBlur f s, fun f => ?_, ?_⟩
  · cases f <;> rfl
  · cases f <;> rfl
  · cases f <;> rfl
  · unfold applyValidationAll
    rw [resetHandler_handleBlur, resetHandler_handleBlur, resetHandler_handleBlur]

/-- **C10.** An `input` event on a validated field removes only that
field's error styling class: the inline error texts, the other fields'
classes, all field values, the visibility flags and the button state are
unchanged; the error text is only replaced by that field's next blur (or
submit) validation. -/
theorem input_clears_only_error_class (s : FormState) (f : FieldType) :
    errClassOf f (handleInput f s) = false ∧
    (∀ g, errTextOf g (handleInput f s) = errTextOf g s) ∧
    (∀ g, g ≠ f → errClassOf g (handleInput f s) = errClassOf g s) ∧
    (∀ g, fieldValue g (handleInput f s) = fieldValue g s) ∧
    (handleInput f s).phoneValue = s.phoneValue ∧
    (handleInput f s).formVisible = s.formVisible ∧
    (handleInput f s).successVisible = s.successVisible ∧
    (handleInput f s).submitDisabled = s.submitDisabled ∧
    (handleInput f s).btnLoading = s.btnLoading ∧
    errTextOf f (handleBlur f s) = (validateField f (fieldValue f s)).getD "" := by
  refine ⟨?_, fun g => ?_, fun g hg => ?_, fun g => ?_, ?_, ?_, ?_, ?_, ?_, ?_⟩
  · cases f <;> rfl
  · cases f <;> cases g <;> rfl
  · cases f <;> cases g <;> first | rfl | exact absurd rfl hg
  · cases f <;> cases g <;> rfl
  · cases f <;> rfl
  · cases f <;> rfl
  · cases f <;> rfl
  · cases f <;> rfl
  · cases f <;> rfl
  · rw [handleBlur_eq_setErr]
    cases f <;> rfl

/-- Witness for C10: with both name and email in error state, an `input`
event on the name field leaves the email field's class and the name
field's error text untouched. -/
theorem input_clears_only_error_class_witness :
    errClassOf .femail (handleInput .fname
      { nameValue := "", emailValue := "", messageValue := "", phoneValue := none,
        nameErrText := "This field is required.",
        emailErrText := "This field is required.", messageErrText := "",
        nameErrClass := true, emailErrClass := true, messageErrClass := false,
        formVisible := true, successVisible := false, submitDisabled := false,
        btnLoading := false }) = true ∧
    errTextOf .fname (handleInput .fname
      { nameValue := "", emailValue := "", messageValue := "", phoneValue := none,
        nameErrText := "This field is required.",
        emailErrText := "This field is required.", messageErrText := "",
        nameErrClass := true, emailErrClass := true, messageErrClass := false,
        formVisible := true, successVisible := false, submitDisabled := false,
        btnLoading := false }) = "This field is required." :=
  ⟨(input_clears_only_error_class _ .fname).2.2.1 .femail (by decide),
    (input_clears_only_error_class _ .fname).2.1 .fname⟩

set_option maxRecDepth 8192 in
/-- **C9 (code bug).** The original variant's submit handler builds a
mailto deep link and, in its timeout callback, creates a hidden anchor
carrying it and appends that anchor to the document body — but the anchor
is never activated (there is no `click()` call), so no mailto navigation
ever fires, contrary to the code's own comment "Also trigger email client
(backup method)".  At the example submission, the only navigation opened
is the WhatsApp URL. -/
theorem hidden_mailto_never_navigates :
    ∃ pend : PendingSubmit,
      (handleSubmit true none
        { nameValue := "Jo Smith", emailValue := "jo@example.com",
          messageValue := "Hello, I would like to order.", phoneValue := none,
          nameErrText := "", emailErrText := "", messageErrText := "",
          nameErrClass := false, emailErrClass := false, messageErrClass := false,
          formVisible := true, successVisible := false, submitDisabled := false,
          btnLoading := false }).2 = some pend ∧
      pend.hiddenMailto = some (mailtoUrl "Jo Smith" "jo@example.com"
        "Not provided" "General Inquiry" "Hello, I would like to order.") ∧
      (mailtoUrl "Jo Smith" "jo@example.com" "Not provided" "General Inquiry"
        "Hello, I would like to order.").take 7 = "mailto:" ∧
      ∀ (after : FormState),
        (runPending after pend).2.appendedAnchorHrefs =
          [mailtoUrl "Jo Smith" "jo@example.com" "Not provided" "General Inquiry"
            "Hello, I would like to order."] ∧
        (runPending after pend).2.clickedHrefs = [] ∧
        (runPending after pend).2.openedUrls =
          [whatsappUrl "Jo Smith" "jo@example.com" "Not provided" "General Inquiry"
            "Hello, I would like to order."] ∧
        (whatsappUrl "Jo Smith" "jo@example.com" "Not provided" "General Inquiry"
          "Hello, I would like to order.").take 7 = "https:/" := by
  have ht1 : jsTrim "Jo Smith" = "Jo Smith" := by decide
  have ht2 : jsTrim "jo@example.com" = "jo@example.com" := by decide
  have ht3 : jsTrim "Hello, I would like to order." =
      "Hello, I would like to order." := by decide
  refine ⟨{ waUrl := whatsappUrl "Jo Smith" "jo@example.com" "Not provided"
              "General Inquiry" "Hello, I would like to order.",
            hiddenMailto := some (mailtoUrl "Jo Smith" "jo@example.com"
              "Not provided" "General Inquiry"
              "Hello, I would like to order.") }, ?_, rfl, ?_,
    fun after => ⟨rfl, rfl, rfl, ?_⟩⟩
  · unfold handleSubmit
    rw [show formValid
      { nameValue := "Jo Smith", emailValue := "jo@example.com",
        messageValue := "Hello, I would like to order.", phoneValue := none,
        nameErrText := "", emailErrText := "", messageErrText := "",
        nameErrClass := false, emailErrClass := false, messageErrClass := false,
        formVisible := true, successVisible := false, submitDisabled := false,
        btnLoading := false } = true from by decide]
    simp only [ht1, ht2, ht3]
    rfl
  · decide
  · decide

end Freshflow
